import Mathlib

/-!
Shallow embedding of `src/main.py`: a FastAPI service exposing CRUD on a
`users` table (Postgres) with a Redis read-through / write-through cache,
plus a health endpoint.

External stores are modelled as explicit state: the relational store is a
list of rows with an autoincrement counter, the Redis user-cache namespace
is an association list from string keys to user records (JSON round-tripping
is assumed faithful).  Fallible external calls (connecting to Postgres,
Redis get/set/delete, Redis ping) are modelled with boolean failure flags in
an environment `Env`, together with the message the raised exception would
carry.  Each handler returns a `Resp` (an HTTP-level outcome, where `crash`
is an exception escaping the handler uncaught) paired with the post-state.

The `finally: if 'conn' in locals(): conn.close()` epilogue of every
DB-touching handler is modelled by `finallyClose`: because `conn` is
pre-assigned `None`, the locals test is always true, and when the connection
was never established `conn.close()` is `None.close()`, an AttributeError
that replaces any in-flight result.
-/

namespace PracticeApi

structure User where
  id : Nat
  name : String
  email : String
deriving DecidableEq, Repr

/-- The Redis user-cache namespace: serialized user snapshots keyed by string. -/
abbrev Cache := List (String × User)

/-- The `users` table: rows plus the autoincrement counter for the next id. -/
structure DB where
  rows : List User
  nextId : Nat
deriving DecidableEq, Repr

structure St where
  db : DB
  cache : Cache
deriving DecidableEq, Repr

/-- Failure model for the external stores: which calls raise, and with what
exception message (`str(e)` is what the handlers surface as 500 detail). -/
structure Env where
  connectFails : Bool
  connectErr : String
  cacheGetFails : Bool
  cacheGetErr : String
  cacheSetFails : Bool
  cacheSetErr : String
  cacheDelFails : Bool
  cacheDelErr : String
  redisPingOk : Bool
deriving DecidableEq, Repr

/-- Outcome of one handler invocation. `ok` and `err` are responses the
handler itself produces (`err` is a raised `HTTPException`); `crash` is an
exception escaping the handler uncaught. -/
inductive Resp (β : Type) where
  | ok (status : Nat) (body : β)
  | err (status : Nat) (detail : String)
  | crash (msg : String)
deriving DecidableEq, Repr

/-- `user_cache_key` from the source: `f"user:{user_id}"`. -/
def user_cache_key (user_id : Nat) : String :=
  "user:" ++ toString user_id

/-- Redis `SET key value`: overwrite the entry for `k`. -/
def redisSet (c : Cache) (k : String) (u : User) : Cache :=
  c.filter (fun p => p.1 != k) ++ [(k, u)]

/-- Redis `DEL key`: drop the entry for `k`. -/
def redisDel (c : Cache) (k : String) : Cache :=
  c.filter (fun p => p.1 != k)

/-- Redis `GET key`, successful case. -/
def cacheLookup (c : Cache) (k : String) : Option User :=
  (c.find? (fun p => p.1 == k)).map (fun p => p.2)

/-- `cache_user` from the source: `r.set(user_cache_key(user["id"]), json.dumps(user))`.
`r.set` may raise; the raised message is the error value. -/
def cache_user (env : Env) (c : Cache) (u : User) : Except String Cache :=
  if env.cacheSetFails then .error env.cacheSetErr
  else .ok (redisSet c (user_cache_key u.id) u)

/-- `delete_user_cache` from the source: `r.delete(user_cache_key(user_id))`. -/
def delete_user_cache (env : Env) (c : Cache) (user_id : Nat) : Except String Cache :=
  if env.cacheDelFails then .error env.cacheDelErr
  else .ok (redisDel c (user_cache_key user_id))

/-- `get_user_from_cache` from the source: `r.get` (which may raise), then
JSON decode; a missing or empty value is `None`. -/
def get_user_from_cache (env : Env) (c : Cache) (user_id : Nat) :
    Except String (Option User) :=
  if env.cacheGetFails then .error env.cacheGetErr
  else .ok (cacheLookup c (user_cache_key user_id))

/-- `SELECT id, name, email FROM users WHERE id = %s` + `fetchone()`. -/
def dbFind (db : DB) (user_id : Nat) : Option User :=
  db.rows.find? (fun u => u.id == user_id)

/-- Whether an `INSERT` of this email hits the unique index on `email`. -/
def emailExists (db : DB) (email : String) : Bool :=
  db.rows.any (fun u => u.email == email)

/-- Whether an `UPDATE` of row `user_id` to this email hits the unique index
(the index excludes the row being updated itself). -/
def emailOwnedByOther (db : DB) (user_id : Nat) (email : String) : Bool :=
  db.rows.any (fun u => u.id != user_id && u.email == email)

/-- `INSERT INTO users (name, email) VALUES (%s, %s) RETURNING id, name, email`:
the store assigns the next id; result is the returned row and the new table. -/
def sqlInsertUser (db : DB) (name email : String) : User × DB :=
  let u : User := { id := db.nextId, name := name, email := email }
  (u, { rows := db.rows ++ [u], nextId := db.nextId + 1 })

/-- `UPDATE users SET name = %s, email = %s WHERE id = %s RETURNING id, name, email`. -/
def sqlUpdateUser (db : DB) (user_id : Nat) (name email : String) : User × DB :=
  let u : User := { id := user_id, name := name, email := email }
  (u, { rows := db.rows.map (fun v => if v.id == user_id then u else v),
        nextId := db.nextId })

/-- `DELETE FROM users WHERE id = %s`: result is `cur.rowcount` and the new table. -/
def sqlDeleteUser (db : DB) (user_id : Nat) : Nat × DB :=
  (db.rows.countP (fun v => v.id == user_id),
   { rows := db.rows.filter (fun v => v.id != user_id), nextId := db.nextId })

/-- Message of `None.close()`. -/
def noneCloseMsg : String :=
  "AttributeError: NoneType object has no attribute close"

/-- The `finally: if 'conn' in locals(): conn.close()` epilogue.  `conn` is
pre-assigned `None`, so `'conn' in locals()` is always true; when the
connection was never established, `conn.close()` raises an AttributeError
that replaces the in-flight result. -/
def finallyClose {β : Type} (connEstablished : Bool) (r : Resp β) : Resp β :=
  if connEstablished then r else .crash noneCloseMsg

/-- `GET /users/{user_id}` (`get_user` in the source): Redis first — a `GET`
failure there is outside the `try` and escapes uncaught; on a miss, fall back
to Postgres, 404 if absent, else cache the row (a `SET` failure is caught and
mapped to 500) and tag the source. -/
def get_user (env : Env) (st : St) (user_id : Nat) : Resp (User × String) × St :=
  match get_user_from_cache env st.cache user_id with
  | .error e => (.crash e, st)
  | .ok (some cached) => (.ok 200 (cached, "cache"), st)
  | .ok none =>
    if env.connectFails then (finallyClose false (.err 500 env.connectErr), st)
    else
      match dbFind st.db user_id with
      | none => (finallyClose true (.err 404 "User not found"), st)
      | some user =>
        match cache_user env st.cache user with
        | .error e => (finallyClose true (.err 500 e), st)
        | .ok c =>
          (finallyClose true (.ok 200 (user, "db")), { st with cache := c })

structure UserCreate where
  name : String
  email : String
deriving DecidableEq, Repr

/-- `UserUpdate` from the source: both fields `Optional[...] = None`. -/
structure UserUpdate where
  name : Option String
  email : Option String
deriving DecidableEq, Repr

/-- `POST /users` (`create_user`): insert (commit on leaving `with conn:`),
then cache the new row; a unique violation is 409, any other exception after
the connection was made is 500, and the cache write runs only after commit. -/
def create_user (env : Env) (st : St) (payload : UserCreate) : Resp User × St :=
  if env.connectFails then (finallyClose false (.err 500 env.connectErr), st)
  else if emailExists st.db payload.email then
    (finallyClose true (.err 409 "Email already exists"), st)
  else
    let ins := sqlInsertUser st.db payload.name payload.email
    match cache_user env st.cache ins.1 with
    | .error e => (finallyClose true (.err 500 e), { st with db := ins.2 })
    | .ok c => (finallyClose true (.ok 201 ins.1), { db := ins.2, cache := c })

/-- `PUT /users/{user_id}` (`update_user`): fetch the row (404 if absent),
merge supplied fields over existing ones, write the merged row back (commit
on leaving `with conn:`, unique violation rolls back to 409), then overwrite
the cache entry (a failure there is caught and mapped to 500). -/
def update_user (env : Env) (st : St) (user_id : Nat) (payload : UserUpdate) :
    Resp User × St :=
  if env.connectFails then (finallyClose false (.err 500 env.connectErr), st)
  else
    match dbFind st.db user_id with
    | none => (finallyClose true (.err 404 "User not found"), st)
    | some existing =>
      let new_name := payload.name.getD existing.name
      let new_email := payload.email.getD existing.email
      if emailOwnedByOther st.db user_id new_email then
        (finallyClose true (.err 409 "Email already exists"), st)
      else
        let upd := sqlUpdateUser st.db user_id new_name new_email
        match cache_user env st.cache upd.1 with
        | .error e => (finallyClose true (.err 500 e), { st with db := upd.2 })
        | .ok c => (finallyClose true (.ok 200 upd.1), { db := upd.2, cache := c })

/-- `DELETE /users/{user_id}` (`delete_user`): delete from the store; a zero
rowcount raises 404 inside the transaction (rolled back, a no-op); only after
commit is the cache entry removed (a failure there is caught and mapped to
500, with the row already gone from the store). -/
def delete_user (env : Env) (st : St) (user_id : Nat) : Resp Unit × St :=
  if env.connectFails then (finallyClose false (.err 500 env.connectErr), st)
  else
    let del := sqlDeleteUser st.db user_id
    if del.1 == 0 then (finallyClose true (.err 404 "User not found"), st)
    else
      match delete_user_cache env st.cache user_id with
      | .error e => (finallyClose true (.err 500 e), { st with db := del.2 })
      | .ok c => (finallyClose true (.ok 204 ()), { db := del.2, cache := c })

structure HealthOut where
  status : String
  redis : String
  postgres : String
deriving DecidableEq, Repr

/-- `GET /health` (`health`): ping Redis and open/close a Postgres connection,
each probe failure swallowed into a boolean; always returns a body, never an
error, and touches no store state. -/
def health (env : Env) (st : St) : HealthOut × St :=
  let redis_ok := env.redisPingOk
  let pg_ok := !env.connectFails
  ({ status := if redis_ok && pg_ok then "ok" else "degraded",
     redis := if redis_ok then "up" else "down",
     postgres := if pg_ok then "up" else "down" }, st)

/-! ## Concrete fixtures -/

/-- An environment in which every external call succeeds. -/
def okEnv : Env :=
  { connectFails := false, connectErr := ""
    cacheGetFails := false, cacheGetErr := ""
    cacheSetFails := false, cacheSetErr := ""
    cacheDelFails := false, cacheDelErr := ""
    redisPingOk := true }

def ann : User := { id := 1, name := "Ann", email := "ann@x.com" }

/-- Empty store and cache. -/
def st0 : St := { db := { rows := [], nextId := 1 }, cache := [] }

/-- Ann in the store, cache empty. -/
def st1 : St := { db := { rows := [ann], nextId := 2 }, cache := [] }

/-- Ann in the store and in the cache. -/
def st1c : St :=
  { db := { rows := [ann], nextId := 2 }, cache := [(user_cache_key 1, ann)] }

/-- Environment where only the Redis `SET` call raises. -/
def cacheDownEnv : Env :=
  { okEnv with cacheSetFails := true, cacheSetErr := "redis down" }

/-- Environment where establishing the Postgres connection raises. -/
def connDownEnv : Env :=
  { okEnv with connectFails := true, connectErr := "could not connect to server" }

def anne : User := { id := 1, name := "Anne", email := "ann@x.com" }

/-- State after renaming Ann to Anne through the update handler. -/
def stAnne : St :=
  { db := { rows := [anne], nextId := 2 }, cache := [(user_cache_key 1, anne)] }

/-- State after deleting user 1 out of `st1c`. -/
def st1cAfterDel : St := { db := { rows := [], nextId := 2 }, cache := [] }

/-! ## Helper lemmas about the store and cache primitives -/

theorem find?_filter_ne (c : Cache) (k : String) :
    (c.filter (fun p => p.1 != k)).find? (fun p => p.1 == k) = none := by
  rw [List.find?_eq_none]
  intro x hx
  have hz := (List.mem_filter.mp hx).2
  simp only [bne_iff_ne, ne_eq] at hz
  simp [hz]

/-- A fresh `SET` wins every subsequent `GET` of the same key. -/
theorem cacheLookup_redisSet_self (c : Cache) (k : String) (u : User) :
    cacheLookup (redisSet c k u) k = some u := by
  unfold cacheLookup redisSet
  rw [List.find?_append, find?_filter_ne]
  simp [List.find?]

/-- After `DEL`, a `GET` of the same key misses. -/
theorem cacheLookup_redisDel_self (c : Cache) (k : String) :
    cacheLookup (redisDel c k) k = none := by
  unfold cacheLookup redisDel
  rw [find?_filter_ne]
  rfl

/-- The deleted id is gone from the table `DELETE` leaves behind. -/
theorem dbFind_sqlDeleteUser_self (db : DB) (uid : Nat) :
    dbFind (sqlDeleteUser db uid).2 uid = none := by
  unfold dbFind sqlDeleteUser
  rw [List.find?_eq_none]
  intro x hx
  have hz := (List.mem_filter.mp hx).2
  simp only [bne_iff_ne, ne_eq] at hz
  simp [hz]

theorem find?_map_overwrite (l : List User) (uid : Nat) (u : User)
    (hu : (u.id == uid) = true)
    (h : (l.find? (fun v => v.id == uid)).isSome = true) :
    (l.map (fun v => if v.id == uid then u else v)).find? (fun v => v.id == uid)
      = some u := by
  induction l with
  | nil => simp at h
  | cons hd tl ih =>
    simp only [List.map_cons]
    by_cases hh : (hd.id == uid) = true
    · rw [if_pos hh]
      exact List.find?_cons_of_pos (p := fun (v : User) => v.id == uid) _ hu
    · rw [if_neg hh, List.find?_cons_of_neg (p := fun (v : User) => v.id == uid) _ hh]
      apply ih
      rwa [List.find?_cons_of_neg (p := fun (v : User) => v.id == uid) _ hh] at h

/-- Updating row `uid` makes it what `UPDATE ... RETURNING` handed back. -/
theorem dbFind_sqlUpdateUser_self (db : DB) (uid : Nat) (name email : String)
    (h : (dbFind db uid).isSome = true) :
    dbFind (sqlUpdateUser db uid name email).2 uid
      = some (sqlUpdateUser db uid name email).1 := by
  unfold dbFind sqlUpdateUser at *
  exact find?_map_overwrite db.rows uid _ (by simp) h

theorem dbFind_isSome_of_rowcount_pos (db : DB) (uid : Nat)
    (h : 0 < (sqlDeleteUser db uid).1) : (dbFind db uid).isSome = true := by
  unfold sqlDeleteUser at h
  unfold dbFind
  cases hf : db.rows.find? (fun v => v.id == uid) with
  | some u => rfl
  | none =>
    rw [List.find?_eq_none] at hf
    rw [List.countP_eq_zero.mpr hf] at h
    exact absurd h (by simp)

theorem rowcount_zero_of_dbFind_none (db : DB) (uid : Nat)
    (h : dbFind db uid = none) : (sqlDeleteUser db uid).1 = 0 := by
  unfold dbFind at h
  rw [List.find?_eq_none] at h
  exact List.countP_eq_zero.mpr h

/-! ## Handler characterization lemmas -/

/-- A read either leaves the state alone, or it found the row in the store
and its only effect is the read-through cache fill of that row. -/
theorem get_user_state (env : Env) (st : St) (uid : Nat) :
    (get_user env st uid).2 = st
    ∨ ∃ u, dbFind st.db uid = some u
        ∧ (get_user env st uid).2
            = { st with cache := redisSet st.cache (user_cache_key uid) u } := by
  unfold get_user
  cases hg : get_user_from_cache env st.cache uid with
  | error e => left; rfl
  | ok o =>
    cases o with
    | some cached => left; rfl
    | none =>
      cases hc : env.connectFails with
      | true => simp [hc]
      | false =>
        simp only [hc, Bool.false_eq_true, if_false]
        cases hd : dbFind st.db uid with
        | none => left; rfl
        | some u =>
          unfold cache_user
          cases hs : env.cacheSetFails with
          | true => simp [hs]
          | false =>
            simp only [hs, Bool.false_eq_true, if_false]
            have hid : u.id = uid := by
              have hb := List.find?_some (p := fun (v : User) => v.id == uid)
                (by simpa [dbFind] using hd)
              simpa using hb
            right
            exact ⟨u, rfl, by rw [hid]⟩

/-- A create either leaves the state alone, or the insert committed: the
rows grew by exactly the returned row. -/
theorem create_user_state (env : Env) (st : St) (pc : UserCreate) :
    (create_user env st pc).2 = st
    ∨ (create_user env st pc).2.db = (sqlInsertUser st.db pc.name pc.email).2 := by
  unfold create_user
  cases hc : env.connectFails with
  | true => simp [hc]
  | false =>
    simp only [hc, Bool.false_eq_true, if_false]
    cases hd : emailExists st.db pc.email with
    | true => simp [hd]
    | false =>
      simp only [hd, Bool.false_eq_true, if_false]
      unfold cache_user
      cases hs : env.cacheSetFails with
      | true => simp [hs]
      | false => simp [hs]

/-- An update either leaves the state alone, or the merged row was written:
the final table is the original with row `uid` overwritten by the merge. -/
theorem update_user_state (env : Env) (st : St) (uid : Nat) (pu : UserUpdate) :
    (update_user env st uid pu).2 = st
    ∨ ∃ ex, dbFind st.db uid = some ex
        ∧ (update_user env st uid pu).2.db
            = (sqlUpdateUser st.db uid (pu.name.getD ex.name)
                (pu.email.getD ex.email)).2 := by
  unfold update_user
  cases hc : env.connectFails with
  | true => simp [hc]
  | false =>
    simp only [hc, Bool.false_eq_true, if_false]
    cases hd : dbFind st.db uid with
    | none => left; rfl
    | some ex =>
      cases hdup : emailOwnedByOther st.db uid (pu.email.getD ex.email) with
      | true => simp [hdup]
      | false =>
        simp only [hdup, Bool.false_eq_true, if_false]
        unfold cache_user
        cases hs : env.cacheSetFails with
        | true =>
          simp only [hs, if_true]
          right
          exact ⟨ex, rfl, rfl⟩
        | false =>
          simp only [hs, Bool.false_eq_true, if_false]
          right
          exact ⟨ex, rfl, rfl⟩

/-- A delete either leaves the state alone, or a row was actually deleted
(positive rowcount) and the final table is the original without it. -/
theorem delete_user_state (env : Env) (st : St) (uid : Nat) :
    (delete_user env st uid).2 = st
    ∨ (0 < (sqlDeleteUser st.db uid).1
        ∧ (delete_user env st uid).2.db = (sqlDeleteUser st.db uid).2) := by
  unfold delete_user
  cases hc : env.connectFails with
  | true => simp [hc]
  | false =>
    simp only [hc, Bool.false_eq_true, if_false]
    cases hz : ((sqlDeleteUser st.db uid).1 == 0) with
    | true => simp [hz]
    | false =>
      simp only [hz, Bool.false_eq_true, if_false]
      have hpos : 0 < (sqlDeleteUser st.db uid).1 :=
        Nat.pos_of_ne_zero (by simpa using hz)
      unfold delete_user_cache
      cases hs : env.cacheDelFails with
      | true => simp [hs, hpos]
      | false => simp [hs, hpos]

/-- Inversion of a successful update. -/
theorem update_user_ok (env : Env) (st : St) (uid : Nat) (pu : UserUpdate)
    (u : User) (st2 : St)
    (h : update_user env st uid pu = (.ok 200 u, st2)) :
    ∃ ex, dbFind st.db uid = some ex
      ∧ u = (sqlUpdateUser st.db uid (pu.name.getD ex.name)
              (pu.email.getD ex.email)).1
      ∧ st2 = { db := (sqlUpdateUser st.db uid (pu.name.getD ex.name)
                        (pu.email.getD ex.email)).2,
                cache := redisSet st.cache (user_cache_key uid) u } := by
  unfold update_user at h
  cases hc : env.connectFails with
  | true => rw [hc] at h; simp [finallyClose] at h
  | false =>
    rw [hc] at h
    simp only [Bool.false_eq_true, if_false] at h
    cases hd : dbFind st.db uid with
    | none => rw [hd] at h; simp [finallyClose] at h
    | some ex =>
      rw [hd] at h
      simp only at h
      cases hdup : emailOwnedByOther st.db uid (pu.email.getD ex.email) with
      | true => rw [hdup] at h; simp [finallyClose] at h
      | false =>
        rw [hdup] at h
        simp only [Bool.false_eq_true, if_false] at h
        unfold cache_user at h
        cases hs : env.cacheSetFails with
        | true => rw [hs] at h; simp [finallyClose] at h
        | false =>
          rw [hs] at h
          simp only [Bool.false_eq_true, if_false, finallyClose, if_true] at h
          obtain ⟨h1, h2⟩ := Prod.mk.injEq .. ▸ h
          refine ⟨ex, rfl, ?_, ?_⟩
          · exact (Resp.ok.injEq .. ▸ h1).2.symm
          · rw [← h2]
            have hu : u = (sqlUpdateUser st.db uid (pu.name.getD ex.name)
                (pu.email.getD ex.email)).1 := (Resp.ok.injEq .. ▸ h1).2.symm
            rw [hu]
            rfl

/-- Inversion of a successful delete. -/
theorem delete_user_ok (env : Env) (st : St) (uid : Nat) (st2 : St)
    (h : delete_user env st uid = (.ok 204 (), st2)) :
    0 < (sqlDeleteUser st.db uid).1
    ∧ st2 = { db := (sqlDeleteUser st.db uid).2,
              cache := redisDel st.cache (user_cache_key uid) } := by
  unfold delete_user at h
  cases hc : env.connectFails with
  | true => rw [hc] at h; simp [finallyClose] at h
  | false =>
    rw [hc] at h
    simp only [Bool.false_eq_true, if_false] at h
    cases hz : ((sqlDeleteUser st.db uid).1 == 0) with
    | true => rw [hz] at h; simp [finallyClose] at h
    | false =>
      rw [hz] at h
      simp only [Bool.false_eq_true, if_false] at h
      unfold delete_user_cache at h
      cases hs : env.cacheDelFails with
      | true => rw [hs] at h; simp [finallyClose] at h
      | false =>
        rw [hs] at h
        simp only [Bool.false_eq_true, if_false, finallyClose, if_true] at h
        refine ⟨Nat.pos_of_ne_zero (by simpa using hz), ?_⟩
        exact ((Prod.mk.injEq .. ▸ h).2).symm

/-- A read of an id that is in neither the cache nor the store is a 404 that
leaves the whole state (in particular the cache) unchanged. -/
theorem get_user_notfound (env : Env) (st : St) (uid : Nat)
    (hget : env.cacheGetFails = false)
    (hmiss : cacheLookup st.cache (user_cache_key uid) = none)
    (hconn : env.connectFails = false)
    (hrow : dbFind st.db uid = none) :
    get_user env st uid = (.err 404 "User not found", st) := by
  unfold get_user get_user_from_cache
  rw [hget]
  simp only [Bool.false_eq_true, if_false, hmiss]
  rw [hconn]
  simp only [Bool.false_eq_true, if_false, hrow]
  simp [finallyClose]

/-! ## Claims -/

/-- C1, counterexample: with Ann in the store, an empty cache, and a Redis
`SET` that raises, the read-by-id does not return 200 with the fetched
value — the handler's catch-all turns the cache-population failure into a
500, so the claimed behaviour is false at this input. -/
theorem read_fill_failure_cex :
    get_user cacheDownEnv st1 1 = (.err 500 "redis down", st1)
    ∧ (get_user cacheDownEnv st1 1).1 ≠ .ok 200 (ann, "db") := by
  refine ⟨rfl, ?_⟩
  decide

/-- C1, amended: a failure of the cache-population write during a
read-through fill IS treated as a request failure: the read returns a 500
carrying the cache error instead of the value just fetched from the store,
and the state is unchanged. -/
theorem read_fill_failure_is_fatal (env : Env) (st : St) (uid : Nat) (u : User)
    (hget : env.cacheGetFails = false)
    (hmiss : cacheLookup st.cache (user_cache_key uid) = none)
    (hconn : env.connectFails = false)
    (hrow : dbFind st.db uid = some u)
    (hset : env.cacheSetFails = true) :
    get_user env st uid = (.err 500 env.cacheSetErr, st) := by
  unfold get_user get_user_from_cache cache_user
  rw [hget]
  simp only [Bool.false_eq_true, if_false, hmiss]
  rw [hconn]
  simp only [Bool.false_eq_true, if_false, hrow, hset, if_true]
  simp [finallyClose]

theorem read_fill_failure_is_fatal_witness :
    get_user cacheDownEnv st1 1 = (.err 500 cacheDownEnv.cacheSetErr, st1) :=
  read_fill_failure_is_fatal cacheDownEnv st1 1 ann rfl rfl rfl rfl rfl

/-- C2: every successful read-by-id returns the full User record plus a
source tag, and the tag is "cache" exactly when the record was served from
the cache entry, "db" exactly when it was the row fetched from the
relational store on a cache miss. -/
theorem get_user_source_tag (env : Env) (st : St) (uid : Nat) (u : User)
    (s : String) (st2 : St)
    (h : get_user env st uid = (.ok 200 (u, s), st2)) :
    (s = "cache" ∧ cacheLookup st.cache (user_cache_key uid) = some u)
    ∨ (s = "db" ∧ cacheLookup st.cache (user_cache_key uid) = none
        ∧ dbFind st.db uid = some u) := by
  unfold get_user at h
  cases hg : get_user_from_cache env st.cache uid with
  | error e => rw [hg] at h; simp at h
  | ok o =>
    rw [hg] at h
    have hl : cacheLookup st.cache (user_cache_key uid) = o := by
      unfold get_user_from_cache at hg
      cases hgf : env.cacheGetFails with
      | true => rw [hgf] at hg; simp at hg
      | false => rw [hgf] at hg; simpa using hg
    cases o with
    | some cached =>
      simp only at h
      injection h with hfst hsnd
      injection hfst with hstat hbody
      injection hbody with hub hsb
      exact Or.inl ⟨hsb.symm, hub ▸ hl⟩
    | none =>
      cases hc : env.connectFails with
      | true => rw [hc] at h; simp [finallyClose] at h
      | false =>
        rw [hc] at h
        simp only [Bool.false_eq_true, if_false] at h
        cases hd : dbFind st.db uid with
        | none => rw [hd] at h; simp [finallyClose] at h
        | some user =>
          rw [hd] at h
          unfold cache_user at h
          cases hs : env.cacheSetFails with
          | true => rw [hs] at h; simp [finallyClose] at h
          | false =>
            rw [hs] at h
            simp only [Bool.false_eq_true, if_false, finallyClose, if_true] at h
            injection h with hfst hsnd
            injection hfst with hstat hbody
            injection hbody with hub hsb
            exact Or.inr ⟨hsb.symm, hl, by rw [hub]⟩

theorem get_user_source_tag_witness :
    ("cache" = "cache" ∧ cacheLookup st1c.cache (user_cache_key 1) = some ann)
    ∨ ("cache" = "db" ∧ cacheLookup st1c.cache (user_cache_key 1) = none
        ∧ dbFind st1c.db 1 = some ann) :=
  get_user_source_tag okEnv st1c 1 ann "cache" st1c rfl

/-- C4, at the failing input: when establishing the Postgres connection
itself raises, every store-touching handler does NOT exit with its own
HTTPException(500, str(e)); the `finally` block evaluates `None.close()` and
the resulting AttributeError replaces the handler's own error result. -/
theorem conn_failure_close_crash :
    get_user connDownEnv st0 1 = (.crash noneCloseMsg, st0)
    ∧ create_user connDownEnv st0 { name := "Ann", email := "ann@x.com" }
        = (.crash noneCloseMsg, st0)
    ∧ update_user connDownEnv st0 1 { name := some "Anne", email := none }
        = (.crash noneCloseMsg, st0)
    ∧ delete_user connDownEnv st0 1 = (.crash noneCloseMsg, st0)
    ∧ (get_user connDownEnv st0 1).1 ≠ .err 500 connDownEnv.connectErr := by
  refine ⟨rfl, rfl, rfl, rfl, ?_⟩
  decide

/-- C7: reading an id that is in neither the cache nor the store returns
not-found and leaves the whole state — in particular the cache — unchanged:
no entry is populated for that id. -/
theorem never_created_read_untouched (env : Env) (st : St) (uid : Nat)
    (hget : env.cacheGetFails = false)
    (hmiss : cacheLookup st.cache (user_cache_key uid) = none)
    (hconn : env.connectFails = false)
    (hrow : dbFind st.db uid = none) :
    get_user env st uid = (.err 404 "User not found", st) :=
  get_user_notfound env st uid hget hmiss hconn hrow

theorem never_created_read_untouched_witness :
    get_user okEnv st0 42 = (.err 404 "User not found", st0) :=
  never_created_read_untouched okEnv st0 42 rfl rfl rfl rfl

/-- C9: the health check never mutates the state and never fails; it reports
an independent up/down flag per store, and the aggregate status is "ok"
exactly when both probes succeeded, else "degraded". -/
theorem health_contract (env : Env) (st : St) :
    (health env st).2 = st
    ∧ ((health env st).1.redis = "up" ↔ env.redisPingOk = true)
    ∧ ((health env st).1.postgres = "up" ↔ env.connectFails = false)
    ∧ ((health env st).1.status = "ok"
        ↔ (env.redisPingOk = true ∧ env.connectFails = false))
    ∧ ((health env st).1.status = "ok" ∨ (health env st).1.status = "degraded") := by
  cases hr : env.redisPingOk <;> cases hc : env.connectFails <;>
    simp [health, hr, hc]

theorem health_contract_witness : (health okEnv st0).2 = st0 :=
  (health_contract okEnv st0).1

/-- C10: when the insert commits but the subsequent cache write raises, the
create handler returns a 500 carrying the cache error even though the new
row is persisted in the store: the store state is not rolled back and the
cache is untouched. -/
theorem create_cache_failure_not_rolled_back (env : Env) (st : St)
    (pc : UserCreate)
    (hconn : env.connectFails = false)
    (hdup : emailExists st.db pc.email = false)
    (hset : env.cacheSetFails = true) :
    create_user env st pc
      = (.err 500 env.cacheSetErr,
         { db := (sqlInsertUser st.db pc.name pc.email).2, cache := st.cache }) := by
  unfold create_user
  rw [hconn]
  simp only [Bool.false_eq_true, if_false, hdup]
  unfold cache_user
  rw [hset]
  simp [finallyClose]

theorem create_cache_failure_not_rolled_back_witness :
    create_user cacheDownEnv st0 { name := "Ann", email := "ann@x.com" }
      = (.err 500 cacheDownEnv.cacheSetErr,
         { db := (sqlInsertUser st0.db "Ann" "ann@x.com").2, cache := st0.cache }) :=
  create_cache_failure_not_rolled_back cacheDownEnv st0
    { name := "Ann", email := "ann@x.com" } rfl rfl rfl

/-- C3: across all four User operations the store step precedes the cache
step.  Whenever the cache was mutated, the store step had succeeded and the
final table carries the committed store mutation (for the read, the row had
been found); and whenever the store step fails or finds no row — connection
failure, unknown id, duplicate email — the cache (indeed the whole state) is
left untouched. -/
theorem store_mutation_before_cache_mutation (env : Env) (st : St)
    (uid : Nat) (pc : UserCreate) (pu : UserUpdate) :
    ((get_user env st uid).2.db = st.db)
    ∧ ((get_user env st uid).2.cache ≠ st.cache
        → (dbFind st.db uid).isSome = true)
    ∧ ((create_user env st pc).2.cache ≠ st.cache
        → (create_user env st pc).2.db = (sqlInsertUser st.db pc.name pc.email).2)
    ∧ ((update_user env st uid pu).2.cache ≠ st.cache
        → ∃ ex, dbFind st.db uid = some ex
            ∧ (update_user env st uid pu).2.db
                = (sqlUpdateUser st.db uid (pu.name.getD ex.name)
                    (pu.email.getD ex.email)).2)
    ∧ ((delete_user env st uid).2.cache ≠ st.cache
        → 0 < (sqlDeleteUser st.db uid).1
            ∧ (delete_user env st uid).2.db = (sqlDeleteUser st.db uid).2)
    ∧ (env.connectFails = true
        → (get_user env st uid).2 = st ∧ (create_user env st pc).2 = st
            ∧ (update_user env st uid pu).2 = st
            ∧ (delete_user env st uid).2 = st)
    ∧ (dbFind st.db uid = none
        → (get_user env st uid).2 = st ∧ (update_user env st uid pu).2 = st
            ∧ (delete_user env st uid).2 = st)
    ∧ (emailExists st.db pc.email = true → (create_user env st pc).2 = st) := by
  refine ⟨?_, ?_, ?_, ?_, ?_, ?_, ?_, ?_⟩
  · rcases get_user_state env st uid with h | ⟨u, hu, h⟩ <;> rw [h]
  · intro hne
    rcases get_user_state env st uid with h | ⟨u, hu, h⟩
    · exact absurd (congrArg St.cache h) hne
    · rw [hu]; rfl
  · intro hne
    rcases create_user_state env st pc with h | h
    · exact absurd (congrArg St.cache h) hne
    · exact h
  · intro hne
    rcases update_user_state env st uid pu with h | ⟨ex, hex, h⟩
    · exact absurd (congrArg St.cache h) hne
    · exact ⟨ex, hex, h⟩
  · intro hne
    rcases delete_user_state env st uid with h | h
    · exact absurd (congrArg St.cache h) hne
    · exact h
  · intro hc
    refine ⟨?_, ?_, ?_, ?_⟩
    · unfold get_user
      cases hg : get_user_from_cache env st.cache uid with
      | error e => rfl
      | ok o =>
        cases o with
        | some cached => rfl
        | none => simp [hc]
    · unfold create_user; simp [hc]
    · unfold update_user; simp [hc]
    · unfold delete_user; simp [hc]
  · intro hd
    refine ⟨?_, ?_, ?_⟩
    · rcases get_user_state env st uid with h | ⟨u, hu, h⟩
      · exact h
      · rw [hd] at hu; exact absurd hu (by simp)
    · rcases update_user_state env st uid pu with h | ⟨ex, hex, h⟩
      · exact h
      · rw [hd] at hex; exact absurd hex (by simp)
    · rcases delete_user_state env st uid with h | ⟨hpos, h⟩
      · exact h
      · rw [rowcount_zero_of_dbFind_none st.db uid hd] at hpos
        exact absurd hpos (by simp)
  · intro hdup
    unfold create_user
    cases hc2 : env.connectFails with
    | true => simp [hc2]
    | false => simp [hc2, hdup]

theorem store_mutation_before_cache_mutation_witness :
    (create_user okEnv st0 { name := "Ann", email := "ann@x.com" }).2.db
      = (sqlInsertUser st0.db "Ann" "ann@x.com").2 :=
  (store_mutation_before_cache_mutation okEnv st0 1
    { name := "Ann", email := "ann@x.com" } { name := none, email := none }
    ).2.2.1 (by decide)

/-- C5: a successful update of an existing row keeps every field omitted
from the payload at its prior value and overwrites every supplied field, and
the merged row is what ends up both in the store and in the cache. -/
theorem partial_update_merge (env : Env) (st : St) (uid : Nat)
    (pu : UserUpdate) (u : User) (st2 : St)
    (h : update_user env st uid pu = (.ok 200 u, st2)) :
    ∃ ex, dbFind st.db uid = some ex
      ∧ u.id = uid
      ∧ u.name = pu.name.getD ex.name
      ∧ u.email = pu.email.getD ex.email
      ∧ dbFind st2.db uid = some u
      ∧ cacheLookup st2.cache (user_cache_key uid) = some u := by
  obtain ⟨ex, hfind, hu, hst⟩ := update_user_ok env st uid pu u st2 h
  have hsome : (dbFind st.db uid).isSome = true := by rw [hfind]; rfl
  refine ⟨ex, hfind, ?_, ?_, ?_, ?_, ?_⟩
  · rw [hu]; rfl
  · rw [hu]; rfl
  · rw [hu]; rfl
  · rw [hst, hu]
    exact dbFind_sqlUpdateUser_self st.db uid _ _ hsome
  · rw [hst]
    exact cacheLookup_redisSet_self st.cache (user_cache_key uid) u

theorem partial_update_merge_witness :
    ∃ ex, dbFind st1.db 1 = some ex
      ∧ anne.id = 1
      ∧ anne.name = Option.getD (some "Anne") ex.name
      ∧ anne.email = Option.getD none ex.email
      ∧ dbFind stAnne.db 1 = some anne
      ∧ cacheLookup stAnne.cache (user_cache_key 1) = some anne :=
  partial_update_merge okEnv st1 1 { name := some "Anne", email := none }
    anne stAnne rfl

/-- C6: the cache entry is removed only when the store confirmed an actual
row deletion; a delete matching no row fails with not-found leaving the
whole state (any cache entry included) untouched; and after a successful
delete the cache entry is gone, the row is gone, and a subsequent read of
the id under a working environment returns not-found. -/
theorem delete_semantics (env envr : Env) (st : St) (uid : Nat) :
    (∀ st2, delete_user env st uid = (.ok 204 (), st2)
        → envr.cacheGetFails = false → envr.connectFails = false
        → (dbFind st.db uid).isSome = true
          ∧ dbFind st2.db uid = none
          ∧ cacheLookup st2.cache (user_cache_key uid) = none
          ∧ get_user envr st2 uid = (.err 404 "User not found", st2))
    ∧ (dbFind st.db uid = none → env.connectFails = false
        → delete_user env st uid = (.err 404 "User not found", st))
    ∧ ((delete_user env st uid).2.cache ≠ st.cache
        → (dbFind st.db uid).isSome = true
          ∧ dbFind (delete_user env st uid).2.db uid = none) := by
  refine ⟨?_, ?_, ?_⟩
  · intro st2 hok hg hc
    obtain ⟨hpos, hst2⟩ := delete_user_ok env st uid st2 hok
    have hsome := dbFind_isSome_of_rowcount_pos st.db uid hpos
    have hdb : dbFind st2.db uid = none := by
      rw [hst2]; exact dbFind_sqlDeleteUser_self st.db uid
    have hcl : cacheLookup st2.cache (user_cache_key uid) = none := by
      rw [hst2]; exact cacheLookup_redisDel_self st.cache (user_cache_key uid)
    exact ⟨hsome, hdb, hcl, get_user_notfound envr st2 uid hg hcl hc hdb⟩
  · intro hd hc
    have h0 := rowcount_zero_of_dbFind_none st.db uid hd
    unfold delete_user
    rw [hc]
    simp only [Bool.false_eq_true, if_false, h0]
    simp [finallyClose]
  · intro hne
    rcases delete_user_state env st uid with h | ⟨hpos, h⟩
    · exact absurd (congrArg St.cache h) hne
    · refine ⟨dbFind_isSome_of_rowcount_pos st.db uid hpos, ?_⟩
      rw [h]
      exact dbFind_sqlDeleteUser_self st.db uid

theorem delete_semantics_witness :
    (dbFind st1c.db 1).isSome = true
    ∧ dbFind st1cAfterDel.db 1 = none
    ∧ cacheLookup st1cAfterDel.cache (user_cache_key 1) = none
    ∧ get_user okEnv st1cAfterDel 1 = (.err 404 "User not found", st1cAfterDel) :=
  (delete_semantics okEnv okEnv st1c 1).1 st1cAfterDel rfl rfl rfl

/-- C8, counterexample: the handler structurally accepts an update payload
that omits BOTH fields — with Ann in the store, `PUT /users/1 {}` validates,
runs, and returns 200 with the unchanged row — so the claim that such a
payload is not structurally accepted is false at this input. -/
theorem both_fields_omitted_cex :
    update_user okEnv st1 1 { name := none, email := none }
      = (.ok 200 ann, { db := { rows := [ann], nextId := 2 },
                        cache := [(user_cache_key 1, ann)] }) := rfl

/-- C8, amended: an update payload may omit either or both fields (absence
means no change); a payload omitting both is structurally accepted and the
update succeeds as a field-wise no-op, returning the existing row. -/
theorem both_fields_omitted_accepted (env : Env) (st : St) (uid : Nat)
    (ex : User)
    (hconn : env.connectFails = false)
    (hset : env.cacheSetFails = false)
    (hfind : dbFind st.db uid = some ex)
    (huniq : emailOwnedByOther st.db uid ex.email = false) :
    (update_user env st uid { name := none, email := none }).1 = .ok 200 ex := by
  have hid : ex.id = uid := by
    have hb := List.find?_some (p := fun (v : User) => v.id == uid)
      (by simpa [dbFind] using hfind)
    simpa using hb
  have hx : (sqlUpdateUser st.db uid ex.name ex.email).1 = ex := by
    unfold sqlUpdateUser
    cases ex
    simp only at hid ⊢
    simp [hid]
  unfold update_user
  rw [hconn]
  simp only [Bool.false_eq_true, if_false, hfind]
  simp only [Option.getD_none]
  rw [huniq]
  simp only [Bool.false_eq_true, if_false]
  unfold cache_user
  rw [hset]
  simp only [Bool.false_eq_true, if_false, finallyClose, if_true]
  rw [hx]

theorem both_fields_omitted_accepted_witness :
    (update_user okEnv st1 1 { name := none, email := none }).1 = .ok 200 ann :=
  both_fields_omitted_accepted okEnv st1 1 ann rfl rfl rfl rfl

end PracticeApi
